import Mathlib

/-!
Shallow embedding of the attendance backend (`src/app.py`).

External effects (HTTP requests to GitHub, Firebase and ipinfo.io, the
request context, environment variables) are modelled as explicit
parameters: the content the remote call would have returned is passed in,
and `Option.none` stands for a failed call / missing value, mirroring the
Python code's handling of those cases.  The mutable global
`KNOWN_VPN_RANGES` is modelled by explicit state passing.
-/

namespace App

/-! String primitives used by the embedding.  They are written by
structural recursion over the character list so that concrete instances
reduce inside the kernel; each mirrors the Python string operation named
in its comment. -/

/-- Split a character list at every occurrence of `sep`
(Python `str.split(sep)` for a one-character separator). -/
def splitOnChar (sep : Char) : List Char → List (List Char)
  | [] => [[]]
  | c :: cs =>
      let r := splitOnChar sep cs
      if c == sep then [] :: r
      else
        match r with
        | h :: t => (c :: h) :: t
        | [] => [[c]]

/-- Python `str.split(sep)` for a one-character separator, on strings. -/
def strSplitOn (s : String) (sep : Char) : List String :=
  (splitOnChar sep s.toList).map (fun cs => String.mk cs)

/-- Python `str.strip()`. -/
def strTrim (s : String) : String :=
  String.mk
    (((s.toList.dropWhile Char.isWhitespace).reverse.dropWhile
      Char.isWhitespace).reverse)

/-- Whether the first list begins with the second
(Python `str.startswith`). -/
def listStartsWith : List Char → List Char → Bool
  | _, [] => true
  | [], _ :: _ => false
  | a :: as, b :: bs => a == b && listStartsWith as bs

/-- Python `str.startswith`, on strings. -/
def strStartsWith (s pat : String) : Bool :=
  listStartsWith s.toList pat.toList

/-- Drop the first `n` characters of a string. -/
def strDrop (s : String) (n : Nat) : String :=
  String.mk (s.toList.drop n)

/-- A Python value as it arrives from `request.json` / `os.getenv`:
`None`, a string, or a number (floats modelled as rationals). -/
inductive PyVal where
  | vNone : PyVal
  | vStr (s : String) : PyVal
  | vNum (q : ℚ) : PyVal
deriving DecidableEq

/-- Python truthiness of a `PyVal` (`None`, `""` and `0` are falsy),
as used by `if not x` checks in `app.py`. -/
def pyTruthy : PyVal → Bool
  | PyVal.vNone => false
  | PyVal.vStr s => !s.toList.isEmpty
  | PyVal.vNum q => q != 0

/-- Python truthiness of an optional string (e.g. `os.getenv` results,
headers): `None` and `""` are falsy. -/
def pyTruthyStr : Option String → Bool
  | Option.none => false
  | some s => !s.toList.isEmpty

/-- Python `str()` of a `PyVal`, used when values are interpolated into a
CSV line with an f-string. -/
def pyToString : PyVal → String
  | PyVal.vNone => "None"
  | PyVal.vStr s => s
  | PyVal.vNum q => toString q

/-- An IPv4 network: (network address as a 32-bit number, mask length),
as produced by `ipaddress.ip_network`. -/
def Network : Type := Nat × Nat
deriving instance DecidableEq for Network

/-- Membership of an address in a network (`ip_obj in network` in
`ipaddress`): the top `maskLen` bits of the address equal those of the
network address. -/
def inNetwork (ip : Nat) (net : Network) : Bool :=
  ip / 2 ^ (32 - net.2) == net.1 / 2 ^ (32 - net.2)

/-- A run of decimal digits, as accepted inside dotted-quad / mask
positions. -/
def parseDigits (s : String) : Option Nat :=
  if s.toList.isEmpty then Option.none
  else if s.toList.all Char.isDigit then
    some (s.toList.foldl (fun n c => 10 * n + (c.toNat - 48)) 0)
  else Option.none

/-- A dotted-quad IPv4 address string as a 32-bit number
(`ipaddress.ip_address`). -/
def parseIPv4 (s : String) : Option Nat :=
  match (strSplitOn s '.').mapM parseDigits with
  | some [a, b, c, d] =>
      if a < 256 ∧ b < 256 ∧ c < 256 ∧ d < 256 then
        some (a * 16777216 + b * 65536 + c * 256 + d)
      else Option.none
  | _ => Option.none

/-- `ipaddress.ip_network` on a string: either a bare address (a /32
network) or `addr/maskLen` with all host bits zero (`ip_network` raises
`ValueError` on set host bits, which the caller treats as a parse
failure). -/
def parseNetworkStr (s : String) : Option Network :=
  match strSplitOn s '/' with
  | [a] => (parseIPv4 a).map (fun ip => (ip, 32))
  | [a, p] =>
      match parseIPv4 a, parseDigits p with
      | some ip, some m =>
          if m ≤ 32 ∧ ip % 2 ^ (32 - m) = 0 then some (ip, m) else Option.none
      | _, _ => Option.none
  | _ => Option.none

/-- `load_known_vpn_ranges`: parse each stripped line of the file as a
network, falling back to appending "/32", skipping lines that parse
neither way.  A missing file is modelled by the empty line list. -/
def load_known_vpn_ranges (fileLines : List String) : List Network :=
  fileLines.filterMap (fun line =>
    let l := strTrim line
    match parseNetworkStr l with
    | some n => some n
    | Option.none => parseNetworkStr (l ++ "/32"))

/-- `ip_in_known_vpn_range`: the global `KNOWN_VPN_RANGES` is the first
argument; when it is empty the function first reloads it from the file.
Returns the (possibly reloaded) global together with the membership
answer. -/
def ip_in_known_vpn_range (ranges : List Network) (fileLines : List String)
    (ip : Nat) : List Network × Bool :=
  let r := if ranges.isEmpty then load_known_vpn_ranges fileLines else ranges
  (r, r.any (inNetwork ip))

/-- The hardcoded CGNAT range list of `ip_in_cgnat_range`:
`100.64.0.0/10` (100·2^24 + 64·2^16 = 1681915904). -/
def cgnat_ranges : List Network := [(1681915904, 10)]

/-- `ip_in_cgnat_range`: membership of the address in any CGNAT range. -/
def ip_in_cgnat_range (ip : Nat) : Bool :=
  cgnat_ranges.any (inNetwork ip)

/-- The fields of an ipinfo.io response consulted by
`is_ipinfo_flagged_as_vpn` (`bogon`, `privacy.vpn`, `privacy.proxy`,
`privacy.hosting`), each already reduced to its truthiness. -/
structure IpinfoData where
  bogon : Bool
  vpn : Bool
  proxy : Bool
  hosting : Bool
deriving DecidableEq

/-- `is_ipinfo_flagged_as_vpn`. -/
def is_ipinfo_flagged_as_vpn (d : IpinfoData) : Bool :=
  d.bogon || d.vpn || d.proxy || d.hosting

/-- `is_vpn`.  Parameters: the `IPINFO_TOKEN` environment value, the
global `KNOWN_VPN_RANGES`, the VPN range file's lines, the reputation
response `rep` (`Option.none` models `get_ipinfo_data` returning `None`
after a `requests` failure), and the address (already a valid IPv4
number, so the `ValueError` branch for malformed addresses is not
reachable here).  Returns the classification string and the new value of
the global range list. -/
def is_vpn (ipinfo_token : Option String) (ranges : List Network)
    (fileLines : List String) (rep : Option IpinfoData) (ip : Nat) :
    String × List Network :=
  if !(pyTruthyStr ipinfo_token) then ("Unknown", ranges)
  else if ip_in_cgnat_range ip then ("No", ranges)
  else
    let flagged :=
      match rep with
      | some d => is_ipinfo_flagged_as_vpn d
      | Option.none => false
    if flagged then ("Yes", ranges)
    else
      let kr := ip_in_known_vpn_range ranges fileLines ip
      (if kr.2 then "Yes" else "No", kr.1)

/-- One parsed attendance CSV row, in the column order of `CSV_HEADER`
(name, roll, class, qr, lat, lng, time, vpn, gps, ip); `line.split(", ")`
gives the IP at index 9. -/
structure Row where
  name : String
  roll : String
  className : String
  qr : String
  lat : String
  lng : String
  time : String
  vpn : String
  gps : String
  ip : String
deriving DecidableEq

/-- `get_existing_entries`.  The state of the remote attendance file is
passed in: `Option.none` models a 404 (no file yet, returning
`(set(), None, [])`), `some (rows, sha)` models a successful fetch of
well-formed rows with version token `sha`.  Returns the set of existing
IPs (as a list), the sha, and the entries. -/
def get_existing_entries (stored : Option (List Row × String)) :
    List String × Option String × List Row :=
  match stored with
  | Option.none => ([], Option.none, [])
  | some (rows, sha) => (rows.map Row.ip, some sha, rows)

/-- The `for entry in existing_entries: ... existing_entries.remove(entry)`
loop of `update_attendance`, with Python's remove-while-iterating
semantics: after a removal the iteration index moves past the element
that slid into the removed slot, so that element is kept untested.
Returns (entries added to the defaulters file, entries remaining). -/
def removeDupLoop (ip : String) : List Row → List Row × List Row
  | [] => ([], [])
  | [e] => if e.ip == ip then ([e], []) else ([], [e])
  | e :: f :: rest =>
      if e.ip == ip then
        let dr := removeDupLoop ip rest
        (e :: dr.1, f :: dr.2)
      else
        let dr := removeDupLoop ip (f :: rest)
        (dr.1, e :: dr.2)

/-- Outcome of `update_attendance`: a successful commit carries the full
new ledger content and the rows appended to the defaulters file;
`err c` models `InvalidUsage(_, c)` raised after a failed GitHub call. -/
inductive UpdResult where
  | ok (ledger : List Row) (defaulters : List Row) : UpdResult
  | err (code : Nat) : UpdResult
deriving DecidableEq

/-- `update_attendance`.  `readState` is the remote file content at the
initial `get_existing_entries` fetch; `writeState` is its content when
the final PUT lands, so a mismatch between the sha read and the sha
current at write time models the GitHub conflict on a stale `sha`
(`raise_for_status` then raises and the code surfaces a 500).  On the
duplicate-IP branch the matching prior entries are moved to the
defaulters file and the new entry is appended regardless. -/
def update_attendance (readState writeState : Option (List Row × String))
    (row : Row) : UpdResult :=
  let r := get_existing_entries readState
  let existing_ips := r.1
  let sha := r.2.1
  let entries := r.2.2
  let dr :=
    if existing_ips.contains row.ip then removeDupLoop row.ip entries
    else ([], entries)
  match sha with
  | Option.none =>
      match writeState with
      | Option.none => UpdResult.ok [row] dr.1
      | some _ => UpdResult.err 500
  | some s =>
      match writeState with
      | some p => if s == p.2 then UpdResult.ok (dr.2 ++ [row]) dr.1
                  else UpdResult.err 500
      | Option.none => UpdResult.err 500

/-- Whether an `update_attendance` outcome reported the submission as a
duplicate: either entries were flagged into the defaulters file, or a
409 was surfaced (the code never does the latter). -/
def duplicate_reported : UpdResult → Bool
  | UpdResult.ok _ defaulters => !defaulters.isEmpty
  | UpdResult.err c => c == 409

/-- `DISTANCE_THRESHOLD` constant (meters). -/
def DISTANCE_THRESHOLD : ℕ := 250

/-- `math.radians`. -/
noncomputable def radians (x : ℝ) : ℝ := x * Real.pi / 180

open Classical in
/-- `math.atan2 y x`, defined piecewise from `Real.arctan` in the usual
quadrant convention. -/
noncomputable def atan2 (y x : ℝ) : ℝ :=
  if 0 < x then Real.arctan (y / x)
  else if x < 0 ∧ 0 ≤ y then Real.arctan (y / x) + Real.pi
  else if x < 0 ∧ y < 0 then Real.arctan (y / x) - Real.pi
  else if x = 0 ∧ 0 < y then Real.pi / 2
  else if x = 0 ∧ y < 0 then -(Real.pi / 2)
  else 0

/-- `calculate_distance`: the haversine formula on a sphere of radius
6371 km, in meters, over the reals (idealising Python floats). -/
noncomputable def calculate_distance (lat1 lon1 lat2 lon2 : ℝ) : ℝ :=
  let dLat := radians (lat2 - lat1)
  let dLon := radians (lon2 - lon1)
  let rlat1 := radians lat1
  let rlat2 := radians lat2
  let a := Real.sin (dLat / 2) ^ 2 +
    Real.cos rlat1 * Real.cos rlat2 * Real.sin (dLon / 2) ^ 2
  let c := 2 * atan2 (Real.sqrt a) (Real.sqrt (1 - a))
  6371 * c * 1000

open Classical in
/-- `is_valid_location`.  The teacher anchor is the pair
`get_teacher_location` would return: `(None, None)` on a Firebase
failure or absent data, and each component individually optional
(`data.get`).  Any `None` component yields `False`; otherwise `False`
exactly when the haversine distance exceeds the threshold. -/
noncomputable def is_valid_location (anchor : Option ℚ × Option ℚ)
    (lat lng : ℚ) : Bool :=
  match anchor with
  | (some tlat, some tlng) =>
      if calculate_distance (lat : ℝ) (lng : ℝ) (tlat : ℝ) (tlng : ℝ) >
          (DISTANCE_THRESHOLD : ℝ) then false
      else true
  | _ => false

/-- `validate_token`: the `Authorization` header against the
`RAILWAY_TOKEN` environment value.  Returns `some (status, message)` for
the raised `InvalidUsage`, `Option.none` when the token validates. -/
def validate_token (auth_header railway : Option String) :
    Option (Nat × String) :=
  if !(pyTruthyStr auth_header) then some (401, "Authorization header missing")
  else
    let h := auth_header.getD ""
    if !(strStartsWith h "Bearer ") then
      some (401, "Invalid authorization format")
    else
      let token := (strSplitOn h ' ').getD 1 ""
      if railway == some token then Option.none
      else some (401, "Invalid API token")

/-- The submission payload read from `request.json` (each `data.get`
result). -/
structure SubmitData where
  student_name : PyVal
  student_roll : PyVal
  class_name : PyVal
  qr_code : PyVal
  lat : PyVal
  lng : PyVal
  time : PyVal
  gps_status : PyVal
deriving DecidableEq

/-- The `if not ... or not ...` required-field condition of
`submit_attendance` (note `gps_status` is not required). -/
def missing_required (d : SubmitData) : Bool :=
  !(pyTruthy d.student_name) || !(pyTruthy d.student_roll) ||
  !(pyTruthy d.class_name) || !(pyTruthy d.qr_code) ||
  !(pyTruthy d.lat) || !(pyTruthy d.lng) || !(pyTruthy d.time)

/-- Python `float(x)` on a request value: numbers pass through, strings
go through decimal parsing (simple `[sign]digits[.digits]` forms; the
claims never rely on the richer forms Python also accepts), anything
else fails. -/
def pyFloat : PyVal → Option ℚ
  | PyVal.vNum q => some q
  | PyVal.vStr s =>
      let t := strTrim s
      let unsigned := fun (u : String) =>
        match strSplitOn u '.' with
        | [a] => (parseDigits a).map (fun n => (n : ℚ))
        | [a, b] =>
            match parseDigits a, parseDigits b with
            | some n, some f =>
                some ((n : ℚ) + (f : ℚ) / ((10 : ℚ) ^ b.toList.length))
            | _, _ => Option.none
        | _ => Option.none
      if strStartsWith t "-" then (unsigned (strDrop t 1)).map (fun q => -q)
      else if strStartsWith t "+" then unsigned (strDrop t 1)
      else unsigned t
  | PyVal.vNone => Option.none

/-- Dotted-quad rendering of an address, for the IP column of the CSV
row. -/
def ipToString (ip : Nat) : String :=
  toString (ip / 16777216 % 256) ++ "." ++ toString (ip / 65536 % 256) ++
  "." ++ toString (ip / 256 % 256) ++ "." ++ toString (ip % 256)

/-- The CSV row `update_attendance` builds for the submission
(`new_entry` in the source, structured). -/
def mkRow (d : SubmitData) (flat flng : ℚ) (vpn : String) (ip : Nat) : Row :=
  { name := pyToString d.student_name
    roll := pyToString d.student_roll
    className := pyToString d.class_name
    qr := pyToString d.qr_code
    lat := toString flat
    lng := toString flng
    time := pyToString d.time
    vpn := vpn
    gps := pyToString d.gps_status
    ip := ipToString ip }

/-- Outcome of the `/submit_attendance` endpoint: 200 success, or the
`InvalidUsage` status and message raised. -/
inductive SubmitResult where
  | success : SubmitResult
  | error (code : Nat) (msg : String) : SubmitResult
deriving DecidableEq

/-- `submit_attendance`, the endpoint handler.  External inputs are
explicit: the `RAILWAY_TOKEN` env value, the `Authorization` header, the
JSON payload, the client address, the teacher anchor, the
`IPINFO_TOKEN` env value, the reputation response, the VPN range global
and file, and the remote ledger state at read and at write time. -/
noncomputable def submit_attendance (railway auth : Option String)
    (d : SubmitData) (ip : Nat) (anchor : Option ℚ × Option ℚ)
    (ipinfo_token : Option String) (rep : Option IpinfoData)
    (ranges : List Network) (fileLines : List String)
    (readState writeState : Option (List Row × String)) : SubmitResult :=
  match validate_token auth railway with
  | some e => SubmitResult.error e.1 e.2
  | Option.none =>
    if missing_required d then SubmitResult.error 400 "Missing required fields"
    else
      match pyFloat d.lat, pyFloat d.lng with
      | some flat, some flng =>
          if !(is_valid_location anchor flat flng) then
            SubmitResult.error 403 "Invalid location"
          else
            let v := is_vpn ipinfo_token ranges fileLines rep ip
            match update_attendance readState writeState
                (mkRow d flat flng v.1 ip) with
            | UpdResult.ok _ _ => SubmitResult.success
            | UpdResult.err c => SubmitResult.error c "GitHub API Error"
      | _, _ => SubmitResult.error 400 "Invalid latitude or longitude format."

/-! Sample ledger rows used by the concrete counterexamples and
witnesses. -/

/-- A committed row: roll "R1", IP 1.1.1.1. -/
def rowA : Row :=
  ⟨"Alice", "R1", "CS", "q", "1", "1", "t0", "No", "ok", "1.1.1.1"⟩

/-- A submission with the same roll "R1" as `rowA` but a different IP and
device context. -/
def rowB : Row :=
  ⟨"Bob", "R1", "CS", "q", "1", "1", "t1", "No", "ok", "2.2.2.2"⟩

/-- A submission with a different roll but the same IP 1.1.1.1 as
`rowA`. -/
def rowC : Row :=
  ⟨"Carol", "R9", "CS", "q", "1", "1", "t2", "No", "ok", "1.1.1.1"⟩

/-- A submission with a fresh roll and IP. -/
def rowD : Row :=
  ⟨"Dan", "R4", "CS", "q", "1", "1", "t3", "Unknown", "ok", "3.3.3.3"⟩

/-- Claim C5: an IP in the CGNAT range 100.64.0.0/10 is classified "No"
whatever the reputation response and the known-VPN table say (both checks
are skipped: the result and the range-table state are independent of
them), provided the `IPINFO_TOKEN` configuration value is set. -/
theorem cgnat_short_circuits_to_no (ipinfo_token : Option String)
    (ranges : List Network) (fileLines : List String)
    (rep : Option IpinfoData) (ip : Nat)
    (htok : pyTruthyStr ipinfo_token = true)
    (hcg : ip_in_cgnat_range ip = true) :
    is_vpn ipinfo_token ranges fileLines rep ip = ("No", ranges) := by
  simp [is_vpn, htok, hcg]

/-- Witness for `cgnat_short_circuits_to_no`: 100.64.0.1 (1681915905)
is classified "No" even though the known-VPN table contains exactly that
address and the reputation data flags every field. -/
theorem cgnat_short_circuits_to_no_witness :
    is_vpn (some "t") [(1681915905, 32)] ["100.64.0.1"]
      (some ⟨true, true, true, true⟩) 1681915905 = ("No", [(1681915905, 32)]) :=
  cgnat_short_circuits_to_no _ _ _ _ _ (by decide) (by decide)

/-- Claim C10: with `IPINFO_TOKEN` unset (or empty), `is_vpn` returns
"Unknown" for every IP — the result and the range-table state are
independent of the CGNAT check, the reputation response and the known-VPN
table, so no classification check runs. -/
theorem missing_token_yields_unknown (ipinfo_token : Option String)
    (ranges : List Network) (fileLines : List String)
    (rep : Option IpinfoData) (ip : Nat)
    (htok : pyTruthyStr ipinfo_token = false) :
    is_vpn ipinfo_token ranges fileLines rep ip = ("Unknown", ranges) := by
  simp [is_vpn, htok]

/-- Witness for `missing_token_yields_unknown`: with no token, even a
CGNAT address that is also in the known-VPN table and flagged by the
reputation data is classified "Unknown". -/
theorem missing_token_yields_unknown_witness :
    is_vpn Option.none [(1681915905, 32)] ["100.64.0.1"]
      (some ⟨true, true, true, true⟩) 1681915905
      = ("Unknown", [(1681915905, 32)]) :=
  missing_token_yields_unknown _ _ _ _ _ (by decide)

/-- Counterexample to claim C4: for 1.2.3.4 (16909060, outside CGNAT),
with the token set and the reputation lookup failed (`Option.none`), the
classification is "No", not "Unknown". -/
theorem reputation_failure_not_unknown_cex :
    (is_vpn (some "tok") [] [] Option.none 16909060).1 = "No" ∧
    (is_vpn (some "tok") [] [] Option.none 16909060).1 ≠ "Unknown" := by
  decide

/-- Claim C4 (amended): when the reputation lookup fails, the classifier
falls back to the known-VPN-range check — "Yes" on a match, otherwise
"No" — and the failure never blocks the request: for any resulting
`vpn_status` string on the row, the commit still appends the row to the
ledger. -/
theorem reputation_failure_falls_back (ipinfo_token : Option String)
    (ranges : List Network) (fileLines : List String) (ip : Nat)
    (rows : List Row) (sha : String) (row : Row)
    (htok : pyTruthyStr ipinfo_token = true)
    (hcg : ip_in_cgnat_range ip = false)
    (hnew : row.ip ∉ rows.map Row.ip) :
    is_vpn ipinfo_token ranges fileLines Option.none ip
      = (if (ip_in_known_vpn_range ranges fileLines ip).2 then "Yes" else "No",
         (ip_in_known_vpn_range ranges fileLines ip).1) ∧
    update_attendance (some (rows, sha)) (some (rows, sha)) row
      = UpdResult.ok (rows ++ [row]) [] := by
  constructor
  · simp [is_vpn, htok, hcg]
  · have hex : ¬∃ a ∈ rows, a.ip = row.ip := by
      rintro ⟨a, ha, hip⟩
      exact hnew (List.mem_map.mpr ⟨a, ha, hip⟩)
    simp [update_attendance, get_existing_entries, hex]

/-- Witness for `reputation_failure_falls_back`: 1.2.3.4 with a failed
lookup is classified "No" (no match in the empty table) and the
submission row (carrying vpn status "Unknown") is still committed. -/
theorem reputation_failure_falls_back_witness :
    is_vpn (some "tok") [] [] Option.none 16909060
      = (if (ip_in_known_vpn_range [] [] 16909060).2 then "Yes" else "No",
         (ip_in_known_vpn_range [] [] 16909060).1) ∧
    update_attendance (some ([rowA], "s1")) (some ([rowA], "s1")) rowD
      = UpdResult.ok ([rowA] ++ [rowD]) [] :=
  reputation_failure_falls_back _ _ _ _ _ _ _ (by decide) (by decide)
    (by decide)

/-- Counterexample to claim C7: `ip_in_known_vpn_range`, called during
request handling with the global table empty, reloads the table from the
file as a side effect — the table is not left unchanged. -/
theorem known_vpn_table_reloaded_cex :
    (ip_in_known_vpn_range [] ["9.9.9.9"] 0).1 ≠ [] := by
  decide

/-- Claim C7 (amended): the known-VPN table is loaded at process start,
but it is also reloaded automatically during request handling: whenever
`ip_in_known_vpn_range` finds the global table empty it reloads it from
the static file, and it leaves a non-empty table unchanged. -/
theorem known_vpn_table_lazy_reload (ranges : List Network)
    (fileLines : List String) (ip : Nat) :
    (ip_in_known_vpn_range ranges fileLines ip).1
      = if ranges.isEmpty then load_known_vpn_ranges fileLines else ranges :=
  rfl

/-- When some entry of the list carries the duplicated IP, the
defaulter side of `removeDupLoop` is non-empty: the first matching entry
is always flagged (the skip-after-removal only passes over elements
following an already-flagged match). -/
lemma removeDupLoop_fst_ne_nil (ip : String) :
    ∀ l : List Row, (∃ e ∈ l, e.ip = ip) → (removeDupLoop ip l).1 ≠ [] := by
  intro l
  induction l with
  | nil => rintro ⟨e, he, _⟩; cases he
  | cons e t ih =>
    rintro ⟨x, hx, hxip⟩
    cases t with
    | nil =>
      have hex : x = e := by
        cases hx with
        | head => rfl
        | tail _ h => cases h
      subst hex
      simp [removeDupLoop, hxip]
    | cons f rest =>
      by_cases he : e.ip = ip
      · simp [removeDupLoop, he]
      · have hx' : x ∈ f :: rest := by
          cases hx with
          | head => exact absurd hxip he
          | tail _ h => exact h
        have := ih ⟨x, hx', hxip⟩
        simp only [removeDupLoop, beq_iff_eq, if_neg he]
        simpa using this

/-- Counterexample to claim C1: the ledger holds `rowA` with roll "R1";
the submission `rowB` has the same roll "R1" for the same class but a
different IP, and it is not reported as a duplicate — it is appended as
a second row for that roll with nothing flagged. -/
theorem same_roll_not_reported_cex :
    rowB.roll = rowA.roll ∧
    duplicate_reported
      (update_attendance (some ([rowA], "s1")) (some ([rowA], "s1")) rowB)
      = false ∧
    update_attendance (some ([rowA], "s1")) (some ([rowA], "s1")) rowB
      = UpdResult.ok [rowA, rowB] [] := by
  decide

/-- Claim C1 (amended): with the ledger present, a second submission is
reported as a duplicate exactly when its IP address matches some existing
row's IP; the roll number is never consulted by the duplicate check. -/
theorem duplicate_check_is_ip_keyed (rows : List Row) (sha : String)
    (row : Row) :
    duplicate_reported
      (update_attendance (some (rows, sha)) (some (rows, sha)) row) = true
      ↔ row.ip ∈ rows.map Row.ip := by
  by_cases hc : row.ip ∈ rows.map Row.ip
  · have hex : ∃ a ∈ rows, a.ip = row.ip := by
      obtain ⟨a, ha, hip⟩ := List.mem_map.mp hc
      exact ⟨a, ha, hip⟩
    have hne := removeDupLoop_fst_ne_nil row.ip rows hex
    simp [update_attendance, get_existing_entries, duplicate_reported, hex,
      hc, List.isEmpty_iff, hne]
  · have hex : ¬∃ a ∈ rows, a.ip = row.ip := by
      rintro ⟨a, ha, hip⟩
      exact hc (List.mem_map.mpr ⟨a, ha, hip⟩)
    simp [update_attendance, get_existing_entries, duplicate_reported, hex,
      hc]

/-- Counterexample to claim C2: the ledger holds `rowA` with IP 1.1.1.1;
the submission `rowC` has the same IP, so the duplicate check matches —
yet the call succeeds (no 409-equivalent error) and the new row is
appended to the ledger, with the prior matching row moved to the
defaulters file. -/
theorem duplicate_not_rejected_cex :
    rowC.ip = rowA.ip ∧
    update_attendance (some ([rowA], "s1")) (some ([rowA], "s1")) rowC
      = UpdResult.ok [rowC] [rowA] := by
  decide

/-- Claim C2 (amended): when the duplicate check matches an existing
ledger row (same IP), the submission is not rejected: the call returns
success, the new row is appended to the resulting ledger, and the
matching prior entries are flagged into the defaulters file. -/
theorem duplicate_flagged_and_accepted (rows : List Row) (sha : String)
    (row : Row) (hdup : row.ip ∈ rows.map Row.ip) :
    ∃ led dfs,
      update_attendance (some (rows, sha)) (some (rows, sha)) row
        = UpdResult.ok led dfs ∧ row ∈ led ∧ dfs ≠ [] := by
  have hex : ∃ a ∈ rows, a.ip = row.ip := by
    obtain ⟨a, ha, hip⟩ := List.mem_map.mp hdup
    exact ⟨a, ha, hip⟩
  have hne := removeDupLoop_fst_ne_nil row.ip rows hex
  refine ⟨(removeDupLoop row.ip rows).2 ++ [row],
    (removeDupLoop row.ip rows).1, ?_, ?_, hne⟩
  · simp [update_attendance, get_existing_entries, hex]
  · simp

/-- Witness for `duplicate_flagged_and_accepted` at the ledger `[rowA]`
and the same-IP submission `rowC`. -/
theorem duplicate_flagged_and_accepted_witness :
    ∃ led dfs,
      update_attendance (some ([rowA], "s1")) (some ([rowA], "s1")) rowC
        = UpdResult.ok led dfs ∧ rowC ∈ led ∧ dfs ≠ [] :=
  duplicate_flagged_and_accepted [rowA] "s1" rowC (by decide)

/-- Counterexample to claim C3: the ledger content moved from sha "s1"
to sha "s2" between the read and the write (a concurrent commit); the
write with the stale sha is not retried — the call surfaces a
500-equivalent error instead of re-reading and committing both rows. -/
theorem stale_sha_not_retried_cex :
    update_attendance (some ([rowA], "s1")) (some ([rowA, rowB], "s2")) rowD
      = UpdResult.err 500 := by
  decide

/-- Claim C3 (amended): on a conflict during commit — the store's
version token at write time differs from the token observed at read
time — `update_attendance` performs no retry: it immediately surfaces a
500-equivalent error, for any ledger contents. -/
theorem stale_sha_immediate_error (rows rows2 : List Row)
    (sha sha2 : String) (row : Row) (h : sha ≠ sha2) :
    update_attendance (some (rows, sha)) (some (rows2, sha2)) row
      = UpdResult.err 500 := by
  simp [update_attendance, get_existing_entries, h]

/-- Witness for `stale_sha_immediate_error` at concrete states. -/
theorem stale_sha_immediate_error_witness :
    update_attendance (some ([rowA], "sA")) (some ([rowA, rowB], "sB")) rowD
      = UpdResult.err 500 :=
  stale_sha_immediate_error [rowA] [rowA, rowB] "sA" "sB" rowD (by decide)

/-- Claim C8: the haversine distance is symmetric —
`calculate_distance A B = calculate_distance B A` for all coordinate
pairs. -/
theorem calculate_distance_symm (lat1 lon1 lat2 lon2 : ℝ) :
    calculate_distance lat1 lon1 lat2 lon2
      = calculate_distance lat2 lon2 lat1 lon1 := by
  have hs : ∀ u v : ℝ,
      Real.sin (radians (u - v) / 2) ^ 2
        = Real.sin (radians (v - u) / 2) ^ 2 := by
    intro u v
    have h : radians (u - v) / 2 = -(radians (v - u) / 2) := by
      simp only [radians]; ring
    rw [h, Real.sin_neg, neg_sq]
  simp only [calculate_distance]
  rw [hs lat2 lat1, hs lon2 lon1,
    mul_comm (Real.cos (radians lat1)) (Real.cos (radians lat2))]

/-- Claim C6: a submission that passes authorization, the required-field
check and coordinate parsing is rejected with a 403 when the teacher
anchor cannot be resolved (either component missing, which covers the
Firebase failure and the absent-anchor cases) or when the haversine
distance to the anchor exceeds the threshold; anchor absence is never
treated as valid-everywhere. -/
theorem unresolved_anchor_or_out_of_range_rejected
    (railway auth : Option String) (d : SubmitData) (ip : Nat)
    (anchor : Option ℚ × Option ℚ) (ipinfo_token : Option String)
    (rep : Option IpinfoData) (ranges : List Network)
    (fileLines : List String)
    (readState writeState : Option (List Row × String)) (flat flng : ℚ)
    (hauth : validate_token auth railway = Option.none)
    (hreq : missing_required d = false)
    (hlat : pyFloat d.lat = some flat) (hlng : pyFloat d.lng = some flng)
    (hloc : anchor.1 = Option.none ∨ anchor.2 = Option.none ∨
      ∃ tlat tlng, anchor = (some tlat, some tlng) ∧
        calculate_distance (flat : ℝ) (flng : ℝ) (tlat : ℝ) (tlng : ℝ) >
          (DISTANCE_THRESHOLD : ℝ)) :
    submit_attendance railway auth d ip anchor ipinfo_token rep ranges
      fileLines readState writeState
      = SubmitResult.error 403 "Invalid location" := by
  have hval : is_valid_location anchor flat flng = false := by
    obtain ⟨a1, a2⟩ := anchor
    rcases hloc with h | h | ⟨tlat, tlng, heq, hd⟩
    · simp only at h
      subst h
      cases a2 <;> simp [is_valid_location]
    · simp only at h
      subst h
      cases a1 <;> simp [is_valid_location]
    · rw [Prod.mk.injEq] at heq
      obtain ⟨h1, h2⟩ := heq
      subst h1; subst h2
      simp only [is_valid_location]
      rw [if_pos hd]
  simp [submit_attendance, hauth, hreq, hlat, hlng, hval]

/-- Witness for `unresolved_anchor_or_out_of_range_rejected`: a fully
valid submission against a class with no published anchor is rejected
with 403 "Invalid location". -/
theorem unresolved_anchor_rejected_witness :
    submit_attendance (some "tk") (some "Bearer tk")
      ⟨PyVal.vStr "Alice", PyVal.vStr "R1", PyVal.vStr "CS",
       PyVal.vStr "q", PyVal.vNum 1, PyVal.vNum 1, PyVal.vStr "t0",
       PyVal.vStr "ok"⟩
      16909060 (Option.none, Option.none) (some "t") Option.none [] []
      Option.none Option.none
      = SubmitResult.error 403 "Invalid location" :=
  unresolved_anchor_or_out_of_range_rejected _ _ _ _ _ _ _ _ _ _ _ 1 1
    (by decide) (by decide) rfl rfl (Or.inl rfl)

/-- Claim C9: the required-field check uses truthiness, not presence — a
submission in which any of the seven required fields is falsy (`None`,
an empty string, or the number 0, so in particular a latitude or
longitude of exactly 0) is rejected with 400 "Missing required fields"
before coordinates are ever parsed. -/
theorem falsy_required_field_rejected (railway auth : Option String)
    (d : SubmitData) (ip : Nat) (anchor : Option ℚ × Option ℚ)
    (ipinfo_token : Option String) (rep : Option IpinfoData)
    (ranges : List Network) (fileLines : List String)
    (readState writeState : Option (List Row × String))
    (hauth : validate_token auth railway = Option.none)
    (hfalsy : pyTruthy d.student_name = false ∨
      pyTruthy d.student_roll = false ∨ pyTruthy d.class_name = false ∨
      pyTruthy d.qr_code = false ∨ pyTruthy d.lat = false ∨
      pyTruthy d.lng = false ∨ pyTruthy d.time = false) :
    submit_attendance railway auth d ip anchor ipinfo_token rep ranges
      fileLines readState writeState
      = SubmitResult.error 400 "Missing required fields" := by
  have hmiss : missing_required d = true := by
    simp only [missing_required, Bool.or_eq_true, Bool.not_eq_true']
    tauto
  simp [submit_attendance, hauth, hmiss]

/-- Witness for `falsy_required_field_rejected`: a submission whose
latitude is exactly the number 0 (all other fields present and truthy)
is rejected with 400 — a coordinate of exactly 0 can never be
submitted. -/
theorem falsy_required_field_rejected_witness :
    submit_attendance (some "tk") (some "Bearer tk")
      ⟨PyVal.vStr "Alice", PyVal.vStr "R1", PyVal.vStr "CS",
       PyVal.vStr "q", PyVal.vNum 0, PyVal.vNum 1, PyVal.vStr "t0",
       PyVal.vStr "ok"⟩
      16909060 (some 1, some 1) (some "t") Option.none [] []
      Option.none Option.none
      = SubmitResult.error 400 "Missing required fields" :=
  falsy_required_field_rejected _ _ _ _ _ _ _ _ _ _ _ (by decide)
    (Or.inr (Or.inr (Or.inr (Or.inr (Or.inl (by decide))))))

end App
